import Mathlib

/-!
Verification of the cross-log configuration-resolution and log-gating core.

The definitions below are a shallow embedding of the TypeScript sources:
  - src/core/types.ts   (data model: LogLevel, LoggerConfig, ...)
  - src/core/utils.ts   (detectEnvironment, parseLogLevel, parseEnvBoolean,
                         parseEnvInt, getEnvVar, isLoggingEnabled)
  - src/core/config.ts  (ConfigManager: mergeWithDefaults, getDefaultLogLevel,
                         getDefaultColorsEnabled, getConfig, updateConfig)
  - src/loggers/base.ts (BaseLogger: logWithLevel, isDuplicateLog,
                         enableAll, disableAll, disableCategory)

JavaScript runtime behaviour that matters to the semantics is modelled
explicitly: string falsiness (the empty string is falsy), numeric falsiness
(0 is falsy), object spread producing a shallow copy, and Map insertion-order
semantics (modelled by association lists).
-/

namespace CrossLog

/-- Log level enumeration from src/core/types.ts: DEBUG=0, INFO=1, WARN=2,
ERROR=3, SILENT=4. -/
inductive LogLevel where
  | DEBUG
  | INFO
  | WARN
  | ERROR
  | SILENT
deriving DecidableEq, Repr

/-- Numeric value of a log level, matching the TypeScript enum values. -/
def LogLevel.toNat : LogLevel → Nat
  | .DEBUG => 0
  | .INFO => 1
  | .WARN => 2
  | .ERROR => 3
  | .SILENT => 4

/-- Model of the JavaScript toLowerCase call as used on ASCII data. -/
def jsToLower (s : String) : String := String.mk (s.data.map Char.toLower)

/-- Model of the JavaScript toUpperCase call as used on ASCII data. -/
def jsToUpper (s : String) : String := String.mk (s.data.map Char.toUpper)

/-- parseLogLevel from src/core/utils.ts: empty or absent input yields null;
otherwise the upper-cased string is matched against the five level names. -/
def parseLogLevel (level : Option String) : Option LogLevel :=
  match level with
  | none => none
  | some l =>
    if l = "" then none
    else
      let upperLevel := jsToUpper l
      if upperLevel = "DEBUG" then some .DEBUG
      else if upperLevel = "INFO" then some .INFO
      else if upperLevel = "WARN" then some .WARN
      else if upperLevel = "ERROR" then some .ERROR
      else if upperLevel = "SILENT" then some .SILENT
      else none

/-- parseEnvBoolean from src/core/utils.ts: an undefined value yields the
default, otherwise true exactly when the lower-cased value equals "true". -/
def parseEnvBoolean (value : Option String) (defaultValue : Bool) : Bool :=
  match value with
  | none => defaultValue
  | some v => jsToLower v = "true"

/-- Leading decimal digits of a character list, as consumed by the JavaScript
parseInt with radix 10; none when there is no leading digit. -/
def leadDigits (cs : List Char) : Option Nat :=
  let ds := cs.takeWhile (fun c => c.isDigit)
  if ds = [] then none
  else some (ds.foldl (fun acc c => acc * 10 + (c.toNat - 48)) 0)

/-- Model of the JavaScript parseInt with radix 10: skip leading whitespace,
accept an optional sign, consume leading digits, NaN (none) otherwise. -/
def jsParseInt (s : String) : Option Int :=
  let cs := s.data.dropWhile (fun c => c = ' ' ∨ c = '\t' ∨ c = '\n' ∨ c = '\r')
  match cs with
  | '-' :: rest => (leadDigits rest).map (fun n => -(n : Int))
  | '+' :: rest => (leadDigits rest).map (fun n => (n : Int))
  | _ => (leadDigits cs).map (fun n => (n : Int))

/-- parseEnvInt from src/core/utils.ts: undefined yields the default, a value
whose parse is NaN also yields the default. -/
def parseEnvInt (value : Option String) (defaultValue : Int) : Int :=
  match value with
  | none => defaultValue
  | some v => (jsParseInt v).getD defaultValue

/-- Ambient JavaScript runtime state: whether a window-like global exists and,
when a process-like global exists, its environment-variable table. -/
structure Runtime where
  hasWindow : Bool
  process : Option (String → Option String)

/-- Environment descriptor from src/core/types.ts. -/
structure Environment where
  isBrowser : Bool
  isNode : Bool
  isDevelopment : Bool
  isProduction : Bool
deriving DecidableEq, Repr

/-- detectEnvironment from src/core/utils.ts: isBrowser iff a window global
exists; isNode iff not browser and a process global exists; isDevelopment iff
a process global exists and its NODE_ENV is not the string "production";
isProduction is the negation of isDevelopment. -/
def detectEnvironment (rt : Runtime) : Environment :=
  let isBrowser := rt.hasWindow
  let isNode := !isBrowser && rt.process.isSome
  let isDevelopment :=
    match rt.process with
    | some env => decide (env "NODE_ENV" ≠ some "production")
    | none => false
  { isBrowser := isBrowser
    isNode := isNode
    isDevelopment := isDevelopment
    isProduction := !isDevelopment }

/-- getEnvVar from src/core/utils.ts with the default argument omitted
(undefined), as every call in config.ts does: when a process global exists the
variable is read and the JavaScript or-operator turns a falsy (empty) value
into the undefined default. -/
def getEnvVar (rt : Runtime) (key : String) : Option String :=
  match rt.process with
  | some env =>
    match env key with
    | some v => if v = "" then none else some v
    | none => none
  | none => none

/-- isLoggingEnabled from src/core/utils.ts: globalEnabled, and messageLevel
at least currentLevel, and currentLevel strictly below SILENT. -/
def isLoggingEnabled (currentLevel messageLevel : LogLevel)
    (globalEnabled : Bool) : Bool :=
  globalEnabled && decide (currentLevel.toNat ≤ messageLevel.toNat) &&
    decide (currentLevel.toNat < LogLevel.SILENT.toNat)

/-- Per-category configuration from src/core/types.ts. -/
structure CategoryConfig where
  enabled : Bool
  minLevel : LogLevel
deriving DecidableEq, Repr

/-- Styled-text (browser) palette from src/core/types.ts. -/
structure BrowserColorConfig where
  debug : String
  info : String
  warn : String
  error : String
deriving DecidableEq, Repr

/-- ANSI palette from src/core/types.ts. -/
structure AnsiColorConfig where
  debug : Int
  info : Int
  warn : Int
  error : Int
deriving DecidableEq, Repr

/-- Color configuration from src/core/types.ts. -/
structure ColorConfig where
  enabled : Bool
  browser : BrowserColorConfig
  ansi : AnsiColorConfig
deriving DecidableEq, Repr

/-- Storage configuration from src/core/types.ts. -/
structure StorageConfig where
  enabled : Bool
  keyPrefix : String
deriving DecidableEq, Repr

/-- Browser-controls configuration from src/core/types.ts. -/
structure BrowserControlsConfig where
  enabled : Bool
  windowNamespace : String
deriving DecidableEq, Repr

/-- The TypeScript Record of category names, modelled as an association list
in property-insertion order (JavaScript objects preserve insertion order for
string keys; updating an existing property keeps its position, a new property
is appended). -/
abbrev CatMap := List (String × CategoryConfig)

/-- Property read on the category record. -/
def catLookup (m : CatMap) (k : String) : Option CategoryConfig :=
  (m.find? (fun p => p.1 = k)).map (fun p => p.2)

/-- Property write on the category record: an existing key is updated in
place, a new key is appended. -/
def catSet (m : CatMap) (k : String) (v : CategoryConfig) : CatMap :=
  if (m.find? (fun p => p.1 = k)).isSome then
    m.map (fun p => if p.1 = k then (k, v) else p)
  else
    m ++ [(k, v)]

/-- Main logger configuration from src/core/types.ts. -/
structure LoggerConfig where
  enabled : Bool
  minLevel : LogLevel
  showTimestamp : Bool
  includeStackTrace : Bool
  categories : CatMap
  colors : ColorConfig
  storage : StorageConfig
  browserControls : BrowserControlsConfig
deriving DecidableEq, Repr

/-- The TypeScript type Partial of LoggerConfig: every top-level field may be
absent. -/
structure PartialLoggerConfig where
  enabled : Option Bool := none
  minLevel : Option LogLevel := none
  showTimestamp : Option Bool := none
  includeStackTrace : Option Bool := none
  categories : Option CatMap := none
  colors : Option ColorConfig := none
  storage : Option StorageConfig := none
  browserControls : Option BrowserControlsConfig := none
deriving DecidableEq, Repr

/-- Environment-variable snapshot from src/core/types.ts (EnvConfig). -/
structure EnvConfig where
  LOG_LEVEL : Option String
  LOGGER_ENABLED : Option String
  LOGGER_TIMESTAMPS : Option String
  LOGGER_STACK_TRACES : Option String
  LOGGER_COLORS : Option String
  LOGGER_STORAGE_ENABLED : Option String
  LOGGER_STORAGE_KEY_PREFIX : Option String
  LOGGER_BROWSER_CONTROLS : Option String
  LOGGER_WINDOW_NAMESPACE : Option String
  LOGGER_COLOR_DEBUG : Option String
  LOGGER_COLOR_INFO : Option String
  LOGGER_COLOR_WARN : Option String
  LOGGER_COLOR_ERROR : Option String
  LOGGER_ANSI_DEBUG : Option String
  LOGGER_ANSI_INFO : Option String
  LOGGER_ANSI_WARN : Option String
  LOGGER_ANSI_ERROR : Option String

/-- ConfigManager.getEnvConfig from src/core/config.ts: read every recognized
environment variable through getEnvVar. -/
def getEnvConfig (rt : Runtime) : EnvConfig where
  LOG_LEVEL := getEnvVar rt "LOG_LEVEL"
  LOGGER_ENABLED := getEnvVar rt "LOGGER_ENABLED"
  LOGGER_TIMESTAMPS := getEnvVar rt "LOGGER_TIMESTAMPS"
  LOGGER_STACK_TRACES := getEnvVar rt "LOGGER_STACK_TRACES"
  LOGGER_COLORS := getEnvVar rt "LOGGER_COLORS"
  LOGGER_STORAGE_ENABLED := getEnvVar rt "LOGGER_STORAGE_ENABLED"
  LOGGER_STORAGE_KEY_PREFIX := getEnvVar rt "LOGGER_STORAGE_KEY_PREFIX"
  LOGGER_BROWSER_CONTROLS := getEnvVar rt "LOGGER_BROWSER_CONTROLS"
  LOGGER_WINDOW_NAMESPACE := getEnvVar rt "LOGGER_WINDOW_NAMESPACE"
  LOGGER_COLOR_DEBUG := getEnvVar rt "LOGGER_COLOR_DEBUG"
  LOGGER_COLOR_INFO := getEnvVar rt "LOGGER_COLOR_INFO"
  LOGGER_COLOR_WARN := getEnvVar rt "LOGGER_COLOR_WARN"
  LOGGER_COLOR_ERROR := getEnvVar rt "LOGGER_COLOR_ERROR"
  LOGGER_ANSI_DEBUG := getEnvVar rt "LOGGER_ANSI_DEBUG"
  LOGGER_ANSI_INFO := getEnvVar rt "LOGGER_ANSI_INFO"
  LOGGER_ANSI_WARN := getEnvVar rt "LOGGER_ANSI_WARN"
  LOGGER_ANSI_ERROR := getEnvVar rt "LOGGER_ANSI_ERROR"

/-- ConfigManager.getDefaultLogLevel from src/core/config.ts: an environment
LOG_LEVEL that parses to a level wins; otherwise DEBUG in development and
WARN in production. -/
def getDefaultLogLevel (environment : Environment) (envConfig : EnvConfig) :
    LogLevel :=
  match parseLogLevel envConfig.LOG_LEVEL with
  | some envLevel => envLevel
  | none => if environment.isDevelopment then .DEBUG else .WARN

/-- ConfigManager.getDefaultColorsEnabled from src/core/config.ts: colors on
in the browser, or in Node development. -/
def getDefaultColorsEnabled (environment : Environment) : Bool :=
  environment.isBrowser || environment.isDevelopment

/-- ConfigManager.mergeWithDefaults from src/core/config.ts: the defaults
object folds the environment variables over the runtime-aware base values,
and the final object spread lets every user-supplied top-level field
override it. -/
def mergeWithDefaults (rt : Runtime) (userConfig : PartialLoggerConfig) :
    LoggerConfig :=
  let environment := detectEnvironment rt
  let envConfig := getEnvConfig rt
  let storageKeyVal : Option String :=
    match envConfig with
    | { LOGGER_STORAGE_KEY_PREFIX := v, .. } => v
  let defaults : LoggerConfig := {
    enabled := parseEnvBoolean envConfig.LOGGER_ENABLED true
    minLevel := getDefaultLogLevel environment envConfig
    showTimestamp := parseEnvBoolean envConfig.LOGGER_TIMESTAMPS true
    includeStackTrace := parseEnvBoolean envConfig.LOGGER_STACK_TRACES true
    categories := []
    colors := {
      enabled := parseEnvBoolean envConfig.LOGGER_COLORS
        (getDefaultColorsEnabled environment)
      browser := {
        debug := (envConfig.LOGGER_COLOR_DEBUG).getD "#6EC1E4"
        info := (envConfig.LOGGER_COLOR_INFO).getD "#4A9FCA"
        warn := (envConfig.LOGGER_COLOR_WARN).getD "#FBC02D"
        error := (envConfig.LOGGER_COLOR_ERROR).getD "#D67C2A" }
      ansi := {
        debug := parseEnvInt envConfig.LOGGER_ANSI_DEBUG 36
        info := parseEnvInt envConfig.LOGGER_ANSI_INFO 36
        warn := parseEnvInt envConfig.LOGGER_ANSI_WARN 33
        error := parseEnvInt envConfig.LOGGER_ANSI_ERROR 31 } }
    storage := {
      enabled := parseEnvBoolean envConfig.LOGGER_STORAGE_ENABLED
        environment.isBrowser
      keyPrefix := storageKeyVal.getD "universal_logger" }
    browserControls := {
      enabled := parseEnvBoolean envConfig.LOGGER_BROWSER_CONTROLS
        (environment.isBrowser && environment.isDevelopment)
      windowNamespace := (envConfig.LOGGER_WINDOW_NAMESPACE).getD
        "__universalLogger" } }
  { enabled := userConfig.enabled.getD defaults.enabled
    minLevel := userConfig.minLevel.getD defaults.minLevel
    showTimestamp := userConfig.showTimestamp.getD defaults.showTimestamp
    includeStackTrace :=
      userConfig.includeStackTrace.getD defaults.includeStackTrace
    categories := userConfig.categories.getD defaults.categories
    colors := userConfig.colors.getD defaults.colors
    storage := userConfig.storage.getD defaults.storage
    browserControls :=
      userConfig.browserControls.getD defaults.browserControls }

/-- The BaseLogger recentLogs Map from src/loggers/base.ts, modelled as an
association list from composite key to last-accepted timestamp, in Map
insertion order. -/
abbrev Ledger := List (String × Int)

/-- The suppression window duplicateThreshold from src/loggers/base.ts. -/
def duplicateThreshold : Int := 1000

/-- Map lookup on the ledger. -/
def ledgerGet (l : Ledger) (k : String) : Option Int :=
  (l.find? (fun p => p.1 = k)).map (fun p => p.2)

/-- Map set on the ledger: an existing key is updated in place, a new key is
appended, matching JavaScript Map insertion-order semantics. -/
def ledgerSet (l : Ledger) (k : String) (v : Int) : Ledger :=
  if (l.find? (fun p => p.1 = k)).isSome then
    l.map (fun p => if p.1 = k then (k, v) else p)
  else
    l ++ [(k, v)]

/-- The composite duplicate key built in BaseLogger.isDuplicateLog: the
message text, a colon, and the category with the or-operator defaulting an
absent category to the empty string. -/
def dupKey (message : String) (category : Option String) : String :=
  message ++ ":" ++ (match category with
    | some c => c
    | none => "")

/-- BaseLogger.isDuplicateLog from src/loggers/base.ts. A stored timestamp
that is truthy (nonzero) and strictly less than duplicateThreshold
milliseconds old makes the call a duplicate and leaves the ledger untouched.
Otherwise the key is set to the current time and, when the ledger has grown
past 100 entries, entries older than twice the threshold are swept. The
result is the returned boolean together with the ledger after the call. -/
def isDuplicateLog (recentLogs : Ledger) (message : String)
    (category : Option String) (now : Int) : Bool × Ledger :=
  let key := dupKey message category
  let lastTime := ledgerGet recentLogs key
  if (match lastTime with
      | some t => decide (t ≠ 0) && decide (now - t < duplicateThreshold)
      | none => false : Bool) then
    (true, recentLogs)
  else
    let updated := ledgerSet recentLogs key now
    let cleaned :=
      if updated.length > 100 then
        let cutoff := now - duplicateThreshold * 2
        updated.filter (fun p => ¬ (p.2 < cutoff))
      else updated
    (false, cleaned)

/-- The level-gating prefix of BaseLogger.logWithLevel from
src/loggers/base.ts: the sequence of early returns before the duplicate
check. A falsy (empty) category string takes the global branch, mirroring
the JavaScript truthiness test on the category argument. -/
def levelEligible (config : LoggerConfig) (level : LogLevel)
    (category : Option String) : Bool :=
  if config.enabled = false then false
  else
    match category with
    | some c =>
      if c ≠ "" then
        match catLookup config.categories c with
        | some categoryConfig =>
          categoryConfig.enabled &&
            isLoggingEnabled categoryConfig.minLevel level true
        | none => isLoggingEnabled config.minLevel level true
      else isLoggingEnabled config.minLevel level true
    | none => isLoggingEnabled config.minLevel level true

/-- BaseLogger.logWithLevel from src/loggers/base.ts, as a function of the
configuration snapshot, the ledger, and the current time: the boolean is true
exactly when the call reaches outputLog (the event is accepted), and the
second component is the ledger after the call. A call suppressed by the
level gate returns before touching the ledger. -/
def logWithLevel (config : LoggerConfig) (recentLogs : Ledger)
    (level : LogLevel) (message : String) (category : Option String)
    (now : Int) : Bool × Ledger :=
  if levelEligible config level category then
    match isDuplicateLog recentLogs message category now with
    | (true, l) => (false, l)
    | (false, l) => (true, l)
  else (false, recentLogs)

/-- Net effect of BaseLogger.enableCategory from src/loggers/base.ts on the
internal configuration: the category entry is set to enabled with the given
minimum level (the source default for the level argument is DEBUG). -/
def enableCategory (config : LoggerConfig) (category : String)
    (minLevel : LogLevel := .DEBUG) : LoggerConfig :=
  { config with
    categories := catSet config.categories category
      { enabled := true, minLevel := minLevel } }

/-- Net effect of BaseLogger.disableCategory from src/loggers/base.ts on the
internal configuration: an existing entry has its enabled flag cleared and
keeps its minimum level; a missing entry is created disabled with minimum
level DEBUG. -/
def disableCategory (config : LoggerConfig) (category : String) :
    LoggerConfig :=
  match catLookup config.categories category with
  | some categoryConfig =>
    { config with
      categories := catSet config.categories category
        { categoryConfig with enabled := false } }
  | none =>
    { config with
      categories := catSet config.categories category
        { enabled := false, minLevel := .DEBUG } }

/-- Net effect of BaseLogger.enableAll from src/loggers/base.ts on the
internal configuration: global enabled set, global minimum level DEBUG, and
the enabled flag of every key already in the category record set, with no
key added or removed. -/
def enableAll (config : LoggerConfig) : LoggerConfig :=
  { config with
    enabled := true
    minLevel := .DEBUG
    categories := config.categories.map
      (fun p => (p.1, { p.2 with enabled := true })) }

/-- Net effect of BaseLogger.disableAll from src/loggers/base.ts on the
internal configuration: only the global enabled flag is cleared. -/
def disableAll (config : LoggerConfig) : LoggerConfig :=
  { config with enabled := false }

/-!
Reference-level model of ConfigManager.getConfig from src/core/config.ts.
The method body is a single object spread, so the returned object is a new
top-level object whose primitive properties are copied by value and whose
nested objects (categories, colors, storage, browserControls) are copied by
reference. The model keeps the nested objects in an explicit heap addressed
by natural numbers so that aliasing between the internal configuration and
returned snapshots is observable.
-/

/-- A top-level JavaScript LoggerConfig object: primitive properties held by
value, nested objects held as references into the heap. -/
structure TopObj where
  enabled : Bool
  minLevel : LogLevel
  showTimestamp : Bool
  includeStackTrace : Bool
  categoriesRef : Nat
  colorsRef : Nat
  storageRef : Nat
  browserControlsRef : Nat
deriving DecidableEq, Repr

/-- The object heap: one address space per kind of nested object, plus the
next fresh address for top-level objects. -/
structure JsHeap where
  tops : Nat → TopObj
  cats : Nat → CatMap
  colorsAt : Nat → ColorConfig
  storageAt : Nat → StorageConfig
  browserControlsAt : Nat → BrowserControlsConfig
  nextTop : Nat

/-- A ConfigManager instance state: the heap and the reference held in the
private config field. -/
structure CMState where
  heap : JsHeap
  configRef : Nat

/-- ConfigManager.getConfig from src/core/config.ts as a heap operation: the
object spread allocates a fresh top-level object carrying the same property
values as the internal one (so the same nested references) and returns it. -/
def getConfigJs (s : CMState) : CMState × Nat :=
  let r := s.heap.nextTop
  let copy := s.heap.tops s.configRef
  ({ s with heap := { s.heap with
      tops := fun n => if n = r then copy else s.heap.tops n
      nextTop := r + 1 } }, r)

/-- A caller assigning to a top-level property of the object behind reference
r, as in a JavaScript assignment to the enabled property. -/
def setTopEnabled (s : CMState) (r : Nat) (b : Bool) : CMState :=
  { s with heap := { s.heap with
      tops := fun n =>
        if n = r then { s.heap.tops r with enabled := b }
        else s.heap.tops n } }

/-- A caller assigning to the enabled flag of one entry of the categories
object reached through the object behind reference r, as in a JavaScript
assignment through the categories property. The write lands on the heap cell
the categories reference points to. -/
def setCategoryEnabled (s : CMState) (r : Nat) (name : String) (b : Bool) :
    CMState :=
  let cref := (s.heap.tops r).categoriesRef
  { s with heap := { s.heap with
      cats := fun n =>
        if n = cref then
          (s.heap.cats cref).map
            (fun p => if p.1 = name then (p.1, { p.2 with enabled := b })
              else p)
        else s.heap.cats n } }

/-- The category map the ConfigManager's own config object currently sees:
what every subsequent getConfig call and every gating decision would read. -/
def internCategories (s : CMState) : CatMap :=
  s.heap.cats ((s.heap.tops s.configRef).categoriesRef)

/-!  Concrete fixtures used by the closed theorems below. -/

/-- Palette fixture with the compiled-in default colors. -/
def baseColors : ColorConfig :=
  { enabled := true
    browser := { debug := "#6EC1E4", info := "#4A9FCA", warn := "#FBC02D",
                 error := "#D67C2A" }
    ansi := { debug := 36, info := 36, warn := 33, error := 31 } }

/-- Storage fixture with the compiled-in defaults. -/
def baseStorage : StorageConfig :=
  { enabled := false, keyPrefix := "universal_logger" }

/-- Browser-controls fixture with the compiled-in defaults. -/
def baseControls : BrowserControlsConfig :=
  { enabled := false, windowNamespace := "__universalLogger" }

/-- Configuration fixture: the given flag, level and categories over the
default nested sections. -/
def mkConfig (enabled : Bool) (minLevel : LogLevel) (categories : CatMap) :
    LoggerConfig :=
  { enabled := enabled
    minLevel := minLevel
    showTimestamp := true
    includeStackTrace := true
    categories := categories
    colors := baseColors
    storage := baseStorage
    browserControls := baseControls }

/-- Runtime fixture: no window global, no process global. -/
def rtNone : Runtime := { hasWindow := false, process := none }

/-- Runtime fixture: Node development (NODE_ENV unset), no variables set. -/
def rtDevPlain : Runtime := { hasWindow := false, process := some fun _ => none }

/-- Runtime fixture: Node development with LOG_LEVEL set to WARN. -/
def rtDevWarn : Runtime :=
  { hasWindow := false
    process := some fun k => if k = "LOG_LEVEL" then some "WARN" else none }

/-- Runtime fixture: Node development with LOGGER_ENABLED set to maybe. -/
def rtMaybe : Runtime :=
  { hasWindow := false
    process := some fun k => if k = "LOGGER_ENABLED" then some "maybe" else none }

/-- Heap fixture: one top-level config object at address 0 whose categories
reference points at address 0, holding one enabled category named network. -/
def heap0 : JsHeap :=
  { tops := fun _ =>
      { enabled := true, minLevel := .WARN, showTimestamp := true,
        includeStackTrace := true, categoriesRef := 0, colorsRef := 0,
        storageRef := 0, browserControlsRef := 0 }
    cats := fun n =>
      if n = 0 then [("network", { enabled := true, minLevel := .DEBUG })]
      else []
    colorsAt := fun _ => baseColors
    storageAt := fun _ => baseStorage
    browserControlsAt := fun _ => baseControls
    nextTop := 1 }

/-- Manager-state fixture over heap0. -/
def state0 : CMState := { heap := heap0, configRef := 0 }

/-!  Helper lemmas about association-list reads and writes. -/

theorem ledgerGet_cons_ne (x : String × Int) (t : Ledger) (k : String)
    (h : x.1 ≠ k) : ledgerGet (x :: t) k = ledgerGet t k := by
  unfold ledgerGet
  rw [List.find?_cons_of_neg]
  simp [h]

theorem ledgerGet_find?_none (l : Ledger) (k : String)
    (h : ledgerGet l k = none) : l.find? (fun p => p.1 = k) = none := by
  unfold ledgerGet at h
  exact Option.map_eq_none'.mp h

theorem ledgerGet_none_forall (l : Ledger) (k : String)
    (h : ledgerGet l k = none) : ∀ x ∈ l, x.1 ≠ k := by
  have hf := ledgerGet_find?_none l k h
  rw [List.find?_eq_none] at hf
  intro x hx
  have := hf x hx
  simpa using this

theorem ledgerGet_append_single (l : Ledger) (k : String) (v : Int)
    (h : ledgerGet l k = none) : ledgerGet (l ++ [(k, v)]) k = some v := by
  unfold ledgerGet
  rw [List.find?_append, ledgerGet_find?_none l k h]
  simp [List.find?]

theorem ledgerGet_filter_append (l : Ledger) (k : String) (v : Int)
    (q : String × Int → Bool) (h : ∀ x ∈ l, x.1 ≠ k)
    (hq : q (k, v) = true) :
    ledgerGet ((l ++ [(k, v)]).filter q) k = some v := by
  induction l with
  | nil =>
    simp [List.filter, hq]
    unfold ledgerGet
    simp [List.find?]
  | cons x xs ih =>
    have hx : x.1 ≠ k := h x (by simp)
    have hrest := ih (fun y hy => h y (by simp [hy]))
    rw [List.cons_append, List.filter_cons]
    by_cases hqx : q x = true
    · simp only [hqx, if_true]
      rw [ledgerGet_cons_ne x _ k hx]
      exact hrest
    · simp only [hqx]
      simpa using hrest

theorem isDuplicateLog_nil (msg : String) (cat : Option String) (now : Int) :
    isDuplicateLog [] msg cat now = (false, [(dupKey msg cat, now)]) := rfl

theorem isDuplicateLog_fresh (l : Ledger) (msg : String) (cat : Option String)
    (t : Int) (h : ledgerGet l (dupKey msg cat) = none) :
    (isDuplicateLog l msg cat t).1 = false ∧
      ledgerGet (isDuplicateLog l msg cat t).2 (dupKey msg cat) = some t := by
  have hfind := ledgerGet_find?_none l (dupKey msg cat) h
  have hall := ledgerGet_none_forall l (dupKey msg cat) h
  unfold isDuplicateLog
  simp only [h, ledgerSet, hfind, Option.isSome_none, Bool.false_eq_true,
    if_false, ite_false]
  constructor
  · trivial
  · split
    · exact ledgerGet_filter_append l (dupKey msg cat) t _ hall (by
        simp [duplicateThreshold])
    · exact ledgerGet_append_single l (dupKey msg cat) t h

theorem logWithLevel_fst_nil (config : LoggerConfig) (level : LogLevel)
    (msg : String) (cat : Option String) (now : Int) :
    (logWithLevel config [] level msg cat now).1 =
      levelEligible config level cat := by
  unfold logWithLevel
  by_cases hE : levelEligible config level cat = true
  · simp [hE, isDuplicateLog_nil]
  · simp [hE]

theorem isDuplicateLog_hit (l : Ledger) (msg : String) (cat : Option String)
    (now t : Int) (h : ledgerGet l (dupKey msg cat) = some t) (h0 : t ≠ 0)
    (hwin : now - t < duplicateThreshold) :
    isDuplicateLog l msg cat now = (true, l) := by
  unfold isDuplicateLog
  simp [h, h0, hwin]

theorem isDuplicateLog_expired (l : Ledger) (msg : String)
    (cat : Option String) (now t : Int)
    (h : ledgerGet l (dupKey msg cat) = some t)
    (hout : duplicateThreshold ≤ now - t) :
    (isDuplicateLog l msg cat now).1 = false := by
  unfold isDuplicateLog
  simp only [h]
  have : ¬ (now - t < duplicateThreshold) := not_lt.mpr hout
  simp [this]

theorem logWithLevel_eligible (config : LoggerConfig) (l : Ledger)
    (level : LogLevel) (msg : String) (cat : Option String) (now : Int)
    (hE : levelEligible config level cat = true) :
    logWithLevel config l level msg cat now =
      (!(isDuplicateLog l msg cat now).1, (isDuplicateLog l msg cat now).2) := by
  unfold logWithLevel
  rw [hE]
  simp only [if_true]
  rcases hD : isDuplicateLog l msg cat now with ⟨b, l'⟩
  cases b <;> simp

theorem levelEligible_no_override (config : LoggerConfig) (level : LogLevel)
    (cat : Option String)
    (h : ∀ s, cat = some s → catLookup config.categories s = none) :
    levelEligible config level cat =
      (config.enabled && isLoggingEnabled config.minLevel level true) := by
  unfold levelEligible
  cases cat with
  | none => cases hc : config.enabled <;> simp [hc]
  | some s =>
    have hs := h s rfl
    cases hc : config.enabled <;> simp only [hc] <;>
      by_cases he : s = "" <;> simp [he, hs]

theorem levelEligible_override (config : LoggerConfig) (level : LogLevel)
    (c : String) (cc : CategoryConfig) (hne : c ≠ "")
    (hcc : catLookup config.categories c = some cc)
    (hen : config.enabled = true) :
    levelEligible config level (some c) =
      (cc.enabled && isLoggingEnabled cc.minLevel level true) := by
  unfold levelEligible
  simp [hen, hne, hcc]

theorem dupKey_inj_cat (msg c1 c2 : String) (h : c1 ≠ c2) :
    dupKey msg (some c1) ≠ dupKey msg (some c2) := by
  intro he
  apply h
  unfold dupKey at he
  have hd := congrArg String.data he
  simp only [String.data_append] at hd
  have := List.append_cancel_left hd
  exact String.ext this

theorem catLookup_cons (x : String × CategoryConfig) (t : CatMap)
    (k : String) :
    catLookup (x :: t) k = if x.1 = k then some x.2 else catLookup t k := by
  unfold catLookup
  by_cases h : x.1 = k
  · rw [List.find?_cons_of_pos]
    · simp [h]
    · simp [h]
  · rw [List.find?_cons_of_neg]
    · simp [h]
    · simp [h]

theorem catLookup_map_enable (m : CatMap) (k : String) :
    catLookup (m.map fun p => (p.1, { p.2 with enabled := true })) k =
      (catLookup m k).map (fun cc => { cc with enabled := true }) := by
  induction m with
  | nil => rfl
  | cons x xs ih =>
    rw [List.map_cons, catLookup_cons, catLookup_cons]
    by_cases h : x.1 = k <;> simp [h, ih]

theorem catLookup_eq_none_forall (m : CatMap) (k : String)
    (h : catLookup m k = none) : ∀ x ∈ m, x.1 ≠ k := by
  have hf : m.find? (fun p => p.1 = k) = none := by
    unfold catLookup at h
    exact Option.map_eq_none'.mp h
  rw [List.find?_eq_none] at hf
  intro x hx
  simpa using hf x hx

theorem catLookup_mapset_self (m : CatMap) (k : String) (v : CategoryConfig) :
    catLookup (m.map fun p => if p.1 = k then (k, v) else p) k =
      (catLookup m k).map (fun _ => v) := by
  induction m with
  | nil => rfl
  | cons x xs ih =>
    rw [List.map_cons, catLookup_cons, catLookup_cons]
    by_cases h : x.1 = k <;> simp [h, ih]

theorem catLookup_mapset_ne (m : CatMap) (k k' : String) (v : CategoryConfig)
    (h : k' ≠ k) :
    catLookup (m.map fun p => if p.1 = k then (k, v) else p) k' =
      catLookup m k' := by
  induction m with
  | nil => rfl
  | cons x xs ih =>
    rw [List.map_cons, catLookup_cons, catLookup_cons]
    by_cases hx : x.1 = k
    · have hkk : k ≠ k' := fun he => h he.symm
      have hx' : x.1 ≠ k' := by rw [hx]; exact hkk
      simp [hx, hkk, hx', ih]
    · by_cases hx' : x.1 = k' <;> simp [hx, hx', h, ih]

theorem catLookup_append_self (m : CatMap) (k : String) (v : CategoryConfig)
    (h : catLookup m k = none) : catLookup (m ++ [(k, v)]) k = some v := by
  have hf : m.find? (fun p => p.1 = k) = none := by
    unfold catLookup at h
    exact Option.map_eq_none'.mp h
  unfold catLookup
  rw [List.find?_append, hf]
  simp [List.find?]

theorem catLookup_append_ne (m : CatMap) (k k' : String) (v : CategoryConfig)
    (h : k' ≠ k) : catLookup (m ++ [(k, v)]) k' = catLookup m k' := by
  unfold catLookup
  rw [List.find?_append]
  have hkk : (k : String) ≠ k' := fun he => h he.symm
  have : List.find? (fun p => p.1 = k') [(k, v)] = none := by
    simp [List.find?, hkk]
  rw [this]
  simp

theorem catLookup_catSet_self (m : CatMap) (k : String) (v : CategoryConfig) :
    catLookup (catSet m k v) k = some v := by
  unfold catSet
  split
  · rename_i hsome
    rw [catLookup_mapset_self]
    rcases Option.isSome_iff_exists.mp hsome with ⟨p, hp⟩
    unfold catLookup
    rw [hp]
    rfl
  · rename_i hnone
    apply catLookup_append_self
    unfold catLookup
    rw [Option.not_isSome_iff_eq_none.mp hnone]
    rfl

theorem catLookup_catSet_ne (m : CatMap) (k k' : String) (v : CategoryConfig)
    (h : k' ≠ k) : catLookup (catSet m k v) k' = catLookup m k' := by
  unfold catSet
  split
  · exact catLookup_mapset_ne m k k' v h
  · exact catLookup_append_ne m k k' v h

/-!  Claim theorems. -/

/-- Claim C6, counterexample: with neither a window-like nor a process-like
global, detectEnvironment reports isBrowser false and isNode false as the
claim states, but isDevelopment false and isProduction true, refuting the
claimed isDevelopment true / isProduction false. -/
theorem detect_environment_no_globals_counterexample :
    (detectEnvironment rtNone).isBrowser = false ∧
      (detectEnvironment rtNone).isNode = false ∧
      (detectEnvironment rtNone).isDevelopment = false ∧
      (detectEnvironment rtNone).isProduction = true := by
  refine ⟨rfl, rfl, rfl, rfl⟩

/-- Claim C6, amended: when neither a window-like nor a process-like global
exists, detectEnvironment returns isBrowser false, isNode false,
isDevelopment false and isProduction true — the descriptor fails closed to
production (quiet) defaults, not open to development ones. -/
theorem detect_environment_no_globals (rt : Runtime)
    (hw : rt.hasWindow = false) (hp : rt.process = none) :
    detectEnvironment rt =
      { isBrowser := false, isNode := false, isDevelopment := false,
        isProduction := true } := by
  unfold detectEnvironment
  rw [hw, hp]
  rfl

/-- Witness for the amended C6 theorem at the concrete empty runtime. -/
theorem detect_environment_no_globals_witness :
    detectEnvironment rtNone =
      { isBrowser := false, isNode := false, isDevelopment := false,
        isProduction := true } :=
  detect_environment_no_globals rtNone rfl rfl

/-- Claim C7: boolean environment parsing is total and follows one rule — a
present value is true exactly when its lower-casing is the string "true",
an absent value yields the supplied default; empty, "1", "yes" and "maybe"
all parse to false while "TRUE" parses to true; and end to end, a runtime
whose LOGGER_ENABLED variable is the unparsable string "maybe" resolves the
global enabled flag to false rather than to the base default true. -/
theorem parse_env_boolean_rule :
    (∀ (s : String) (d : Bool),
      (parseEnvBoolean (some s) d = true ↔ jsToLower s = "true")) ∧
    (∀ d : Bool, parseEnvBoolean none d = d) ∧
    (parseEnvBoolean (some "") true = false ∧
      parseEnvBoolean (some "1") true = false ∧
      parseEnvBoolean (some "yes") true = false ∧
      parseEnvBoolean (some "maybe") true = false ∧
      parseEnvBoolean (some "TRUE") false = true) ∧
    (∀ (rt : Runtime) (user : PartialLoggerConfig),
      user.enabled = none →
      getEnvVar rt "LOGGER_ENABLED" = some "maybe" →
      (mergeWithDefaults rt user).enabled = false) ∧
    (mergeWithDefaults rtMaybe {}).enabled = false := by
  refine ⟨?_, ?_, ?_, ?_, ?_⟩
  · intro s d
    simp [parseEnvBoolean]
  · intro d
    rfl
  · refine ⟨by decide, by decide, by decide, by decide, by decide⟩
  · intro rt user hu henv
    simp [mergeWithDefaults, getEnvConfig, hu, henv, parseEnvBoolean]
    decide
  · decide

/-- Witness for C7 at a concrete runtime and user configuration: the
end-to-end clause applied to the rtMaybe fixture. -/
theorem parse_env_boolean_rule_witness :
    (mergeWithDefaults rtMaybe {}).enabled = false :=
  parse_env_boolean_rule.2.2.2.1 rtMaybe {} rfl (by decide)

/-- Claim C1: resolution precedence is base < env < user. For the minimum
level: a user-supplied minLevel always wins; otherwise an environment
LOG_LEVEL that parses wins; otherwise the runtime-aware base default (DEBUG
in development, WARN in production) applies. For the enabled flag: a
user-supplied value wins; otherwise a present LOGGER_ENABLED is parsed as a
boolean; otherwise the base default true applies. In particular, in a
development runtime (base DEBUG) with LOG_LEVEL=WARN, a user minLevel of
ERROR resolves to ERROR, no user minLevel resolves to WARN, and without the
variable the base DEBUG applies. -/
theorem config_precedence_base_env_user :
    (∀ (rt : Runtime) (user : PartialLoggerConfig) (lvl : LogLevel),
      user.minLevel = some lvl → (mergeWithDefaults rt user).minLevel = lvl) ∧
    (∀ (rt : Runtime) (user : PartialLoggerConfig) (lvl : LogLevel),
      user.minLevel = none →
      parseLogLevel (getEnvVar rt "LOG_LEVEL") = some lvl →
      (mergeWithDefaults rt user).minLevel = lvl) ∧
    (∀ (rt : Runtime) (user : PartialLoggerConfig),
      user.minLevel = none →
      parseLogLevel (getEnvVar rt "LOG_LEVEL") = none →
      (mergeWithDefaults rt user).minLevel =
        (if (detectEnvironment rt).isDevelopment then LogLevel.DEBUG
          else LogLevel.WARN)) ∧
    (∀ (rt : Runtime) (user : PartialLoggerConfig) (b : Bool),
      user.enabled = some b → (mergeWithDefaults rt user).enabled = b) ∧
    (∀ (rt : Runtime) (user : PartialLoggerConfig) (s : String),
      user.enabled = none →
      getEnvVar rt "LOGGER_ENABLED" = some s →
      (mergeWithDefaults rt user).enabled = parseEnvBoolean (some s) true) ∧
    (∀ (rt : Runtime) (user : PartialLoggerConfig),
      user.enabled = none →
      getEnvVar rt "LOGGER_ENABLED" = none →
      (mergeWithDefaults rt user).enabled = true) ∧
    ((mergeWithDefaults rtDevWarn { minLevel := some .ERROR }).minLevel =
        LogLevel.ERROR ∧
      (mergeWithDefaults rtDevWarn {}).minLevel = LogLevel.WARN ∧
      (mergeWithDefaults rtDevPlain {}).minLevel = LogLevel.DEBUG) := by
  refine ⟨?_, ?_, ?_, ?_, ?_, ?_, ?_, ?_, ?_⟩
  · intro rt user lvl hu
    simp [mergeWithDefaults, hu]
  · intro rt user lvl hu henv
    simp [mergeWithDefaults, hu, getDefaultLogLevel, getEnvConfig, henv]
  · intro rt user hu henv
    simp [mergeWithDefaults, hu, getDefaultLogLevel, getEnvConfig, henv]
  · intro rt user b hu
    simp [mergeWithDefaults, hu]
  · intro rt user s hu henv
    simp [mergeWithDefaults, hu, getEnvConfig, henv]
  · intro rt user hu henv
    simp [mergeWithDefaults, hu, getEnvConfig, henv, parseEnvBoolean]
  · decide
  · decide
  · decide

/-- Witness for C1: the user-beats-env clause applied at the concrete
development runtime with LOG_LEVEL=WARN and an explicit user ERROR level. -/
theorem config_precedence_base_env_user_witness :
    (mergeWithDefaults rtDevWarn { minLevel := some .ERROR }).minLevel =
      LogLevel.ERROR :=
  config_precedence_base_env_user.1 rtDevWarn { minLevel := some .ERROR }
    LogLevel.ERROR rfl

/-- Claim C2: for a call whose category has no per-category override, the
event is accepted (starting from an empty duplicate ledger) exactly when the
global enabled flag is set, the message level is at least the global minimum
level, and the global minimum level is strictly below SILENT; consequently a
configuration with minimum level L2 suppresses any lower L1 and accepts a
message at L2 itself when L2 is below SILENT, and a SILENT global minimum
level suppresses every message, including ERROR. -/
theorem global_gate_characterization :
    (∀ (config : LoggerConfig) (level : LogLevel) (cat : Option String)
        (msg : String) (now : Int),
      (∀ s, cat = some s → catLookup config.categories s = none) →
      ((logWithLevel config [] level msg cat now).1 = true ↔
        (config.enabled = true ∧
          config.minLevel.toNat ≤ level.toNat ∧
          config.minLevel.toNat < LogLevel.SILENT.toNat))) ∧
    (∀ (config : LoggerConfig) (l1 l2 : LogLevel) (msg : String) (now : Int),
      l1.toNat < l2.toNat → config.enabled = true → config.minLevel = l2 →
      ((logWithLevel config [] l1 msg none now).1 = false ∧
        (l2.toNat < LogLevel.SILENT.toNat →
          (logWithLevel config [] l2 msg none now).1 = true))) ∧
    (∀ (config : LoggerConfig) (level : LogLevel) (msg : String)
        (cat : Option String) (now : Int),
      config.minLevel = LogLevel.SILENT →
      (∀ s, cat = some s → catLookup config.categories s = none) →
      (logWithLevel config [] level msg cat now).1 = false) := by
  have hiff : ∀ (config : LoggerConfig) (level : LogLevel)
      (cat : Option String) (msg : String) (now : Int),
      (∀ s, cat = some s → catLookup config.categories s = none) →
      ((logWithLevel config [] level msg cat now).1 = true ↔
        (config.enabled = true ∧
          config.minLevel.toNat ≤ level.toNat ∧
          config.minLevel.toNat < LogLevel.SILENT.toNat)) := by
    intro config level cat msg now h
    rw [logWithLevel_fst_nil, levelEligible_no_override config level cat h]
    simp [isLoggingEnabled]
  refine ⟨hiff, ?_, ?_⟩
  · intro config l1 l2 msg now hlt hen hmin
    constructor
    · rw [← Bool.not_eq_true]
      intro hc
      rcases (hiff config l1 none msg now (fun s hs => by cases hs)).mp hc
        with ⟨-, hle, -⟩
      rw [hmin] at hle
      omega
    · intro hsilent
      refine (hiff config l2 none msg now (fun s hs => by cases hs)).mpr ?_
      rw [hmin]
      exact ⟨hen, le_refl _, hsilent⟩
  · intro config level msg cat now hmin h
    rw [← Bool.not_eq_true]
    intro hc
    rcases (hiff config level cat msg now h).mp hc with ⟨-, -, hlt⟩
    rw [hmin] at hlt
    simp [LogLevel.toNat] at hlt

/-- Witness for C2: a WARN-threshold configuration with no overrides accepts
an ERROR message and rejects a DEBUG message. -/
theorem global_gate_characterization_witness :
    (logWithLevel (mkConfig true .WARN []) [] .ERROR "boom" none 1).1 = true ∧
      (logWithLevel (mkConfig true .WARN []) [] .DEBUG "boom" none 1).1 =
        false :=
  ⟨(global_gate_characterization.1 (mkConfig true .WARN []) .ERROR none
      "boom" 1 (fun s hs => by cases hs)).mpr ⟨rfl, by decide, by decide⟩,
    (global_gate_characterization.2.1 (mkConfig true .WARN []) .DEBUG .WARN
      "boom" 1 (by decide) rfl rfl).1⟩

/-- Claim C3, counterexample: the empty string is a falsy category name in
JavaScript, so a call in category "" is gated by the global minimum level
even when an enabled per-category override for "" exists. With global level
WARN and an override enabling "" at DEBUG, the claim predicts a DEBUG
message in category "" is accepted, but the code suppresses it. -/
theorem category_override_counterexample :
    catLookup
        (mkConfig true .WARN
          [("", { enabled := true, minLevel := .DEBUG })]).categories "" =
      some { enabled := true, minLevel := .DEBUG } ∧
    isLoggingEnabled LogLevel.DEBUG LogLevel.DEBUG true = true ∧
    (logWithLevel
        (mkConfig true .WARN [("", { enabled := true, minLevel := .DEBUG })])
        [] .DEBUG "m" (some "") 1).1 = false := by
  refine ⟨by decide, by decide, by decide⟩

/-- Claim C3, amended: for a nonempty category name with a per-category
override and the global enabled flag set, gating uses only the override:
the event is accepted (from an empty ledger) exactly when the override is
enabled, the requested level is at least the override minimum level, and
that minimum level is below SILENT — the global minimum level plays no
role. Hence a nonempty category enabled at DEBUG accepts DEBUG messages
under a WARN global level, and a disabled category suppresses messages the
global threshold would allow. -/
theorem category_override_gate :
    (∀ (config : LoggerConfig) (level : LogLevel) (c : String)
        (cc : CategoryConfig) (msg : String) (now : Int),
      c ≠ "" → catLookup config.categories c = some cc →
      config.enabled = true →
      (logWithLevel config [] level msg (some c) now).1 =
        (cc.enabled && isLoggingEnabled cc.minLevel level true)) ∧
    (∀ (config : LoggerConfig) (c : String) (msg : String) (now : Int),
      c ≠ "" → config.enabled = true → config.minLevel = .WARN →
      catLookup config.categories c =
        some { enabled := true, minLevel := .DEBUG } →
      (logWithLevel config [] .DEBUG msg (some c) now).1 = true) ∧
    (∀ (config : LoggerConfig) (level : LogLevel) (c : String)
        (cc : CategoryConfig) (msg : String) (now : Int),
      c ≠ "" → config.enabled = true →
      catLookup config.categories c = some cc → cc.enabled = false →
      (logWithLevel config [] level msg (some c) now).1 = false) := by
  have hmain : ∀ (config : LoggerConfig) (level : LogLevel) (c : String)
      (cc : CategoryConfig) (msg : String) (now : Int),
      c ≠ "" → catLookup config.categories c = some cc →
      config.enabled = true →
      (logWithLevel config [] level msg (some c) now).1 =
        (cc.enabled && isLoggingEnabled cc.minLevel level true) := by
    intro config level c cc msg now hne hcc hen
    rw [logWithLevel_fst_nil, levelEligible_override config level c cc hne
      hcc hen]
  refine ⟨hmain, ?_, ?_⟩
  · intro config c msg now hne hen hmin hcc
    rw [hmain config .DEBUG c _ msg now hne hcc hen]
    decide
  · intro config level c cc msg now hne hen hcc hdis
    rw [hmain config level c cc msg now hne hcc hen, hdis]
    rfl

/-- Witness for the amended C3 theorem: a category enabled at DEBUG accepts
a DEBUG message although the global minimum level is WARN, and a disabled
category rejects a WARN message the global threshold would allow. -/
theorem category_override_gate_witness :
    (logWithLevel
        (mkConfig true .WARN [("net", { enabled := true, minLevel := .DEBUG })])
        [] .DEBUG "m" (some "net") 1).1 = true ∧
      (logWithLevel
          (mkConfig true .DEBUG
            [("net", { enabled := false, minLevel := .DEBUG })])
          [] .WARN "m" (some "net") 1).1 = false :=
  ⟨category_override_gate.2.1
      (mkConfig true .WARN [("net", { enabled := true, minLevel := .DEBUG })])
      "net" "m" 1 (by decide) rfl rfl (by decide),
    category_override_gate.2.2
      (mkConfig true .DEBUG
        [("net", { enabled := false, minLevel := .DEBUG })])
      .WARN "net" { enabled := false, minLevel := .DEBUG } "m" 1 (by decide)
      rfl (by decide) rfl⟩

/-- Claim C4: two otherwise-eligible calls with the same message text and
category, the first accepted at a positive time t1 with no prior ledger
entry for their key, produce exactly one accepted event when the second
falls strictly inside the 1000 ms window after t1, and two accepted events
when separated by more than the window; and two calls with the same message
text under different categories are never suppressed against each other,
whatever their timing. -/
theorem duplicate_suppression_window :
    (∀ (config : LoggerConfig) (level : LogLevel) (msg : String)
        (cat : Option String) (l0 : Ledger) (t1 t2 : Int),
      levelEligible config level cat = true →
      ledgerGet l0 (dupKey msg cat) = none →
      0 < t1 → t1 ≤ t2 →
      ((logWithLevel config l0 level msg cat t1).1 = true ∧
        (t2 - t1 < duplicateThreshold →
          (logWithLevel config (logWithLevel config l0 level msg cat t1).2
            level msg cat t2).1 = false) ∧
        (duplicateThreshold < t2 - t1 →
          (logWithLevel config (logWithLevel config l0 level msg cat t1).2
            level msg cat t2).1 = true))) ∧
    (∀ (config : LoggerConfig) (level : LogLevel) (msg : String)
        (c1 c2 : String) (t1 t2 : Int),
      levelEligible config level (some c1) = true →
      levelEligible config level (some c2) = true →
      c1 ≠ c2 →
      ((logWithLevel config [] level msg (some c1) t1).1 = true ∧
        (logWithLevel config
          (logWithLevel config [] level msg (some c1) t1).2
          level msg (some c2) t2).1 = true)) := by
  constructor
  · intro config level msg cat l0 t1 t2 hE hnone hpos hle
    have hf := isDuplicateLog_fresh l0 msg cat t1 hnone
    rw [logWithLevel_eligible config l0 level msg cat t1 hE]
    refine ⟨by rw [hf.1]; rfl, ?_, ?_⟩
    · intro hwin
      rw [logWithLevel_eligible config _ level msg cat t2 hE]
      rw [isDuplicateLog_hit _ msg cat t2 t1 hf.2 (ne_of_gt hpos) hwin]
      rfl
    · intro hout
      rw [logWithLevel_eligible config _ level msg cat t2 hE]
      rw [Bool.not_eq_true']
      exact isDuplicateLog_expired _ msg cat t2 t1 hf.2 (le_of_lt hout)
  · intro config level msg c1 c2 t1 t2 hE1 hE2 hne
    have h1 : logWithLevel config [] level msg (some c1) t1 =
        (true, [(dupKey msg (some c1), t1)]) := by
      rw [logWithLevel_eligible config [] level msg (some c1) t1 hE1,
        isDuplicateLog_nil]
      rfl
    refine ⟨by rw [h1], ?_⟩
    rw [h1, logWithLevel_eligible config _ level msg (some c2) t2 hE2]
    have hget : ledgerGet [(dupKey msg (some c1), t1)] (dupKey msg (some c2)) =
        none := by
      rw [ledgerGet_cons_ne _ _ _ (dupKey_inj_cat msg c1 c2 hne)]
      rfl
    have hf := isDuplicateLog_fresh [(dupKey msg (some c1), t1)] msg
      (some c2) t2 hget
    rw [hf.1]
    rfl

/-- Witness for C4: with an always-eligible configuration, the message dup
in category a is accepted at time 100, suppressed at time 600, and a
message with the same text in category b is accepted at time 600. -/
theorem duplicate_suppression_window_witness :
    ((logWithLevel (mkConfig true .DEBUG []) [] .INFO "dup" (some "a")
        100).1 = true ∧
      (logWithLevel (mkConfig true .DEBUG [])
        (logWithLevel (mkConfig true .DEBUG []) [] .INFO "dup" (some "a")
          100).2 .INFO "dup" (some "a") 600).1 = false) ∧
    (logWithLevel (mkConfig true .DEBUG [])
        (logWithLevel (mkConfig true .DEBUG []) [] .INFO "dup" (some "a")
          100).2 .INFO "dup" (some "b") 600).1 = true :=
  ⟨⟨(duplicate_suppression_window.1 (mkConfig true .DEBUG []) .INFO "dup"
        (some "a") [] 100 600 (by decide) rfl (by decide) (by decide)).1,
      (duplicate_suppression_window.1 (mkConfig true .DEBUG []) .INFO "dup"
        (some "a") [] 100 600 (by decide) rfl (by decide) (by decide)).2.1
        (by decide)⟩,
    (duplicate_suppression_window.2 (mkConfig true .DEBUG []) .INFO "dup"
      "a" "b" 100 600 (by decide) (by decide) (by decide)).2⟩

/-- Claim C9: a suppressed duplicate does not refresh the ledger — when the
stored timestamp for the key is positive and strictly within the 1000 ms
window of now, isDuplicateLog returns true and the ledger is returned
unchanged; and a call whose stored timestamp is at least the window old is
accepted again, so a continuously repeated message is re-accepted as soon
as the window has elapsed since the last accepted occurrence, regardless of
how many suppressed attempts happened in between. -/
theorem duplicate_no_refresh :
    (∀ (l : Ledger) (msg : String) (cat : Option String) (now t : Int),
      ledgerGet l (dupKey msg cat) = some t → 0 < t →
      now - t < duplicateThreshold →
      isDuplicateLog l msg cat now = (true, l)) ∧
    (∀ (l : Ledger) (msg : String) (cat : Option String) (now2 t : Int),
      ledgerGet l (dupKey msg cat) = some t →
      duplicateThreshold ≤ now2 - t →
      (isDuplicateLog l msg cat now2).1 = false) := by
  constructor
  · intro l msg cat now t h hpos hwin
    exact isDuplicateLog_hit l msg cat now t h (ne_of_gt hpos) hwin
  · intro l msg cat now2 t h hout
    exact isDuplicateLog_expired l msg cat now2 t h hout

/-- Witness for C9: a ledger entry for the key of message m with no
category, stored at time 5, makes a call at time 500 a duplicate with the
ledger unchanged, while a call at time 1005 is accepted. -/
theorem duplicate_no_refresh_witness :
    isDuplicateLog [("m:", 5)] "m" none 500 = (true, [("m:", 5)]) ∧
      (isDuplicateLog [("m:", 5)] "m" none 1005).1 = false :=
  ⟨duplicate_no_refresh.1 [("m:", 5)] "m" none 500 5 (by decide) (by decide)
      (by decide),
    duplicate_no_refresh.2 [("m:", 5)] "m" none 1005 5 (by decide)
      (by decide)⟩

/-- Claim C8: enableAll sets the global enabled flag, sets the global
minimum level to DEBUG, flips the enabled flag of every category already in
the map to true while preserving each entry's minimum level, and neither
adds nor removes categories; disableAll clears only the global enabled
flag, leaving the minimum level, the whole category map, and every other
field unchanged. -/
theorem enable_all_disable_all :
    (∀ config : LoggerConfig,
      (enableAll config).enabled = true ∧
      (enableAll config).minLevel = LogLevel.DEBUG ∧
      (enableAll config).categories.map (fun p => p.1) =
        config.categories.map (fun p => p.1) ∧
      (∀ k, catLookup (enableAll config).categories k =
        (catLookup config.categories k).map
          (fun cc => { cc with enabled := true })) ∧
      (enableAll config).showTimestamp = config.showTimestamp ∧
      (enableAll config).includeStackTrace = config.includeStackTrace ∧
      (enableAll config).colors = config.colors ∧
      (enableAll config).storage = config.storage ∧
      (enableAll config).browserControls = config.browserControls) ∧
    (∀ config : LoggerConfig,
      (disableAll config).enabled = false ∧
      (disableAll config).minLevel = config.minLevel ∧
      (disableAll config).categories = config.categories ∧
      (disableAll config).showTimestamp = config.showTimestamp ∧
      (disableAll config).includeStackTrace = config.includeStackTrace ∧
      (disableAll config).colors = config.colors ∧
      (disableAll config).storage = config.storage ∧
      (disableAll config).browserControls = config.browserControls) := by
  constructor
  · intro config
    refine ⟨rfl, rfl, ?_, ?_, rfl, rfl, rfl, rfl, rfl⟩
    · simp [enableAll]
    · intro k
      exact catLookup_map_enable config.categories k
  · intro config
    exact ⟨rfl, rfl, rfl, rfl, rfl, rfl, rfl, rfl⟩

/-- Claim C10: disableCategory on an unregistered category inserts a
disabled entry with minimum level DEBUG; on a registered category it clears
the enabled flag and preserves the stored minimum level; other categories
are untouched; and in both cases the category is afterwards registered, so
a subsequent enableAll flips it back to enabled. -/
theorem disable_category_registers :
    (∀ (config : LoggerConfig) (name : String),
      catLookup config.categories name = none →
      catLookup (disableCategory config name).categories name =
        some { enabled := false, minLevel := LogLevel.DEBUG }) ∧
    (∀ (config : LoggerConfig) (name : String) (cc : CategoryConfig),
      catLookup config.categories name = some cc →
      catLookup (disableCategory config name).categories name =
        some { enabled := false, minLevel := cc.minLevel }) ∧
    (∀ (config : LoggerConfig) (name k : String),
      k ≠ name →
      catLookup (disableCategory config name).categories k =
        catLookup config.categories k) ∧
    (∀ (config : LoggerConfig) (name : String),
      ∃ cc, catLookup
          (enableAll (disableCategory config name)).categories name =
          some cc ∧ cc.enabled = true) := by
  have hreg : ∀ (config : LoggerConfig) (name : String),
      ∃ mi, catLookup (disableCategory config name).categories name =
        some { enabled := false, minLevel := mi } := by
    intro config name
    unfold disableCategory
    cases hc : catLookup config.categories name with
    | none =>
      exact ⟨LogLevel.DEBUG, catLookup_catSet_self config.categories name _⟩
    | some cc =>
      exact ⟨cc.minLevel, catLookup_catSet_self config.categories name _⟩
  refine ⟨?_, ?_, ?_, ?_⟩
  · intro config name hnone
    unfold disableCategory
    rw [hnone]
    exact catLookup_catSet_self config.categories name _
  · intro config name cc hsome
    unfold disableCategory
    rw [hsome]
    exact catLookup_catSet_self config.categories name _
  · intro config name k hk
    unfold disableCategory
    cases hc : catLookup config.categories name <;>
      exact catLookup_catSet_ne config.categories name k _ hk
  · intro config name
    rcases hreg config name with ⟨mi, hmi⟩
    refine ⟨{ enabled := true, minLevel := mi }, ?_, rfl⟩
    have := (enable_all_disable_all.1 (disableCategory config name)).2.2.2.1
      name
    rw [this, hmi]
    rfl

/-- Witness for C10: disabling the unregistered category net registers it
disabled at DEBUG, and a following enableAll re-enables it. -/
theorem disable_category_registers_witness :
    catLookup (disableCategory (mkConfig true .DEBUG []) "net").categories
        "net" = some { enabled := false, minLevel := LogLevel.DEBUG } ∧
      (∃ cc, catLookup
          (enableAll (disableCategory (mkConfig true .DEBUG [])
            "net")).categories "net" = some cc ∧ cc.enabled = true) :=
  ⟨disable_category_registers.1 (mkConfig true .DEBUG []) "net" rfl,
    disable_category_registers.2.2.2 (mkConfig true .DEBUG []) "net"⟩

/-- Claim C5, counterexample: getConfig copies only the top level. Starting
from a manager whose configuration holds one enabled category named
network, the returned snapshot is a fresh top-level object (address 1, not
the internal address 0) and reading it does not disturb the internal state,
but a caller mutation of the nested categories object reachable from the
snapshot changes the category map the internal configuration sees, without
any call to the update operation — refuting the claimed full defensive
copy. -/
theorem get_config_defensive_copy_counterexample :
    (getConfigJs state0).2 ≠ state0.configRef ∧
      internCategories (getConfigJs state0).1 = internCategories state0 ∧
      internCategories
          (setCategoryEnabled (getConfigJs state0).1 (getConfigJs state0).2
            "network" false) ≠
        internCategories (getConfigJs state0).1 := by
  refine ⟨by decide, rfl, by decide⟩

/-- Claim C5, amended: getConfig returns a shallow defensive copy — a fresh
top-level object whose property values equal the internal ones, so
reassigning a top-level property of the snapshot never affects the internal
configuration, while the nested objects (such as the categories map) are
shared by reference, so mutating them through the snapshot is visible to
the internal configuration; internal top-level state still changes only
through the explicit update operation. -/
theorem get_config_shallow_copy (s : CMState)
    (h : s.configRef < s.heap.nextTop) :
    (getConfigJs s).2 ≠ s.configRef ∧
      (getConfigJs s).1.configRef = s.configRef ∧
      (getConfigJs s).1.heap.tops (getConfigJs s).2 =
        s.heap.tops s.configRef ∧
      internCategories (getConfigJs s).1 = internCategories s ∧
      (∀ b, (setTopEnabled (getConfigJs s).1 (getConfigJs s).2 b).heap.tops
          s.configRef = (getConfigJs s).1.heap.tops s.configRef) ∧
      (∀ (name : String) (b : Bool),
        internCategories
            (setCategoryEnabled (getConfigJs s).1 (getConfigJs s).2 name b) =
          (internCategories (getConfigJs s).1).map
            (fun p => if p.1 = name then (p.1, { p.2 with enabled := b })
              else p)) := by
  have hne : s.configRef ≠ s.heap.nextTop := Nat.ne_of_lt h
  refine ⟨fun he => hne he.symm, rfl, ?_, ?_, ?_, ?_⟩
  · simp [getConfigJs]
  · simp [getConfigJs, internCategories, hne]
  · intro b
    simp [getConfigJs, setTopEnabled, hne]
  · intro name b
    simp [getConfigJs, setCategoryEnabled, internCategories, hne]

/-- Witness for the amended C5 theorem at the concrete one-category
manager state. -/
theorem get_config_shallow_copy_witness :
    state0.configRef < state0.heap.nextTop ∧
      (getConfigJs state0).2 ≠ state0.configRef ∧
      internCategories (getConfigJs state0).1 = internCategories state0 :=
  ⟨by decide, (get_config_shallow_copy state0 (by decide)).1,
    (get_config_shallow_copy state0 (by decide)).2.2.2.1⟩

end CrossLog
